import Mathlib

/-!
Verification of the hakit date-and-time widgets: a shallow embedding of the
repository's pure logic (DateText composer, DigitalClock section builder,
flip-digit updaters, timer lifecycles, helpers) together with theorems about
the properties stated in the design document.

Machine integers do not occur: the JavaScript numbers involved are small
integers, modelled by `Nat`/`Int`; fractional CSS values are modelled by `ℚ`.
`Intl.DateTimeFormat` is a platform API, not repository code; it is modelled
as the deterministic function ECMA-402 specifies, over a proleptic Gregorian
calendar with timezones resolved to fixed UTC offsets in minutes and name
tables instantiated for English locales.
-/

namespace DateText

/-- `getOrdinalSuffix` from `src/components/DateText/index.tsx`:
appends the English ordinal suffix to a day number. -/
def getOrdinalSuffix (day : Nat) : String :=
  let v := day % 100
  if 11 ≤ v ∧ v ≤ 13 then toString day ++ "th"
  else
    match day % 10 with
    | 1 => toString day ++ "st"
    | 2 => toString day ++ "nd"
    | 3 => toString day ++ "rd"
    | _ => toString day ++ "th"

end DateText

namespace Intl

/-- Days-from-civil inverse: civil (year, month, day) of a day count relative
to the Unix epoch (1970-01-01), proleptic Gregorian calendar (the calendar
ECMA-402 uses for the `gregory` calendar of the modelled locales). -/
def civilFromDays (z0 : Int) : Int × Nat × Nat :=
  let z := z0 + 719468
  let era := Int.ediv z 146097
  let doe := (Int.emod z 146097).toNat
  let yoe := (doe - doe / 1460 + doe / 36524 - doe / 146096) / 365
  let y : Int := (yoe : Int) + era * 400
  let doy := doe - (365 * yoe + yoe / 4 - yoe / 100)
  let mp := (5 * doy + 2) / 153
  let d := doy - (153 * mp + 2) / 5 + 1
  let m := if mp < 10 then mp + 3 else mp - 9
  (if m ≤ 2 then y + 1 else y, m, d)

/-- Epoch days of the wall-clock date read at UTC offset `offMin` minutes. -/
def wallDays (ms : Int) (offMin : Int) : Int :=
  Int.ediv (ms + offMin * 60000) 86400000

/-- Day of month of instant `ms` (Unix milliseconds) at UTC offset `offMin`. -/
def dayOfMonthAt (ms : Int) (offMin : Int) : Nat :=
  (civilFromDays (wallDays ms offMin)).2.2

/-- Month (1-12) of instant `ms` at UTC offset `offMin`. -/
def monthAt (ms : Int) (offMin : Int) : Nat :=
  (civilFromDays (wallDays ms offMin)).2.1

/-- Year of instant `ms` at UTC offset `offMin`. -/
def yearAt (ms : Int) (offMin : Int) : Int :=
  (civilFromDays (wallDays ms offMin)).1

/-- Day of week, 0 = Sunday; 1970-01-01 was a Thursday. -/
def weekdayAt (ms : Int) (offMin : Int) : Nat :=
  (Int.emod (wallDays ms offMin + 4) 7).toNat

/-- Numeric value padded to two digits, as ECMA-402 renders `2-digit`. -/
def pad2Nat (n : Nat) : String :=
  if n < 10 then "0" ++ toString n else toString n

/-- English long month names (ECMA-402 `month: "long"`, English locales). -/
def monthLongName : Nat → String
  | 1 => "January" | 2 => "February" | 3 => "March" | 4 => "April"
  | 5 => "May" | 6 => "June" | 7 => "July" | 8 => "August"
  | 9 => "September" | 10 => "October" | 11 => "November" | 12 => "December"
  | _ => ""

/-- English short month names (ECMA-402 `month: "short"`, English locales). -/
def monthShortName : Nat → String
  | 1 => "Jan" | 2 => "Feb" | 3 => "Mar" | 4 => "Apr" | 5 => "May" | 6 => "Jun"
  | 7 => "Jul" | 8 => "Aug" | 9 => "Sep" | 10 => "Oct" | 11 => "Nov" | 12 => "Dec"
  | _ => ""

/-- English narrow month names (ECMA-402 `month: "narrow"`, English locales). -/
def monthNarrowName : Nat → String
  | 1 => "J" | 2 => "F" | 3 => "M" | 4 => "A" | 5 => "M" | 6 => "J"
  | 7 => "J" | 8 => "A" | 9 => "S" | 10 => "O" | 11 => "N" | 12 => "D"
  | _ => ""

/-- English long weekday names, indexed 0 = Sunday. -/
def weekdayLongName : Nat → String
  | 0 => "Sunday" | 1 => "Monday" | 2 => "Tuesday" | 3 => "Wednesday"
  | 4 => "Thursday" | 5 => "Friday" | 6 => "Saturday"
  | _ => ""

/-- English short weekday names, indexed 0 = Sunday. -/
def weekdayShortName : Nat → String
  | 0 => "Sun" | 1 => "Mon" | 2 => "Tue" | 3 => "Wed"
  | 4 => "Thu" | 5 => "Fri" | 6 => "Sat"
  | _ => ""

/-- English narrow weekday names, indexed 0 = Sunday. -/
def weekdayNarrowName : Nat → String
  | 0 => "S" | 1 => "M" | 2 => "T" | 3 => "W" | 4 => "T" | 5 => "F" | 6 => "S"
  | _ => ""

/-- `Intl.DateTimeFormatOptions.year` values used by the repository. -/
inductive YearStyle
  | numeric
  | twoDigit
deriving DecidableEq, Repr

/-- `Intl.DateTimeFormatOptions.month` values used by the repository. -/
inductive MonthStyle
  | twoDigit
  | short
  | long
  | narrow
deriving DecidableEq, Repr

/-- `Intl.DateTimeFormatOptions.day` values used by the repository. -/
inductive DayStyle
  | numeric
  | twoDigit
deriving DecidableEq, Repr

/-- `Intl.DateTimeFormatOptions.weekday` values used by the repository. -/
inductive WeekdayStyle
  | long
  | short
  | narrow
deriving DecidableEq, Repr

/-- The subset of `Intl.DateTimeFormatOptions` the DateText widget uses
(date parts only; absent option means the part is not produced). -/
structure DTFOptions where
  year : Option YearStyle
  month : Option MonthStyle
  day : Option DayStyle
  weekday : Option WeekdayStyle
deriving DecidableEq, Repr

/-- A constructed `Intl.DateTimeFormat`: resolved locale (name tables are
instantiated for English locales), optional timezone (a fixed UTC offset in
minutes; `none` means the system timezone), and the requested options. -/
structure DateTimeFormat where
  locale : Option String
  timeZone : Option Int
  opts : DTFOptions
deriving DecidableEq, Repr

/-- Rendering of one `year` part. -/
def formatYear : YearStyle → Int → String
  | .numeric, y => toString y
  | .twoDigit, y => pad2Nat (Int.emod y 100).toNat

/-- Rendering of one `month` part. -/
def formatMonth : MonthStyle → Nat → String
  | .twoDigit, m => pad2Nat m
  | .short, m => monthShortName m
  | .long, m => monthLongName m
  | .narrow, m => monthNarrowName m

/-- Rendering of one `day` part. -/
def formatDay : DayStyle → Nat → String
  | .numeric, d => toString d
  | .twoDigit, d => pad2Nat d

/-- Rendering of one `weekday` part. -/
def formatWeekday : WeekdayStyle → Nat → String
  | .long, w => weekdayLongName w
  | .short, w => weekdayShortName w
  | .narrow, w => weekdayNarrowName w

end Intl

namespace DateText

/-- The date part tokens the DateText widget addresses
(`type DatePartKey = "year" | "month" | "day" | "weekday"`). -/
inductive DatePartKey
  | year
  | month
  | day
  | weekday
deriving DecidableEq, Repr

/-- One element of a preset `order`: a part key or a literal separator
(`(DatePartKey | { sep: string })[]`). -/
inductive Token
  | part (k : DatePartKey)
  | sep (s : String)
deriving DecidableEq, Repr

/-- Preset definition structure (`interface PresetDef`); `dayOrdinal` is
optional in the source and defaults to false. -/
structure PresetDef where
  label : String
  description : String
  order : List Token
  options : Intl.DTFOptions
  dayOrdinal : Bool
deriving DecidableEq, Repr

/-- The keys of the `PRESETS` record (`keyof typeof PRESETS`). -/
inductive PresetKey
  | weekday
  | weekday_short
  | day_numeric
  | day_ordinal
  | month_long
  | month_short
  | month_day_ordinal
  | weekday_month_day_ordinal
  | month_day_year
  | month_day_year_ordinal
  | weekday_month_day
  | weekday_month_day_year
  | dmy_slash
  | ymd_slash
  | mdy_slash
  | iso
  | ymd_dot
  | dmy_dot
  | full_long
  | weekday_day_ordinal
  | weekday_month_day_year_ordinal
  | iso_with_weekday
  | custom
deriving DecidableEq, Repr

/-- The `PRESETS` table of `src/components/DateText/index.tsx`. -/
def PRESETS : PresetKey → PresetDef
  | .weekday =>
    { label := "Weekday (Long)", description := "Monday",
      order := [.part .weekday],
      options := { year := none, month := none, day := none, weekday := some .long },
      dayOrdinal := false }
  | .weekday_short =>
    { label := "Weekday (Short)", description := "Mon",
      order := [.part .weekday],
      options := { year := none, month := none, day := none, weekday := some .short },
      dayOrdinal := false }
  | .day_numeric =>
    { label := "Day (Numeric)", description := "3",
      order := [.part .day],
      options := { year := none, month := none, day := some .numeric, weekday := none },
      dayOrdinal := false }
  | .day_ordinal =>
    { label := "Day (Ordinal)", description := "3rd",
      order := [.part .day],
      options := { year := none, month := none, day := some .numeric, weekday := none },
      dayOrdinal := true }
  | .month_long =>
    { label := "Month (Long)", description := "November",
      order := [.part .month],
      options := { year := none, month := some .long, day := none, weekday := none },
      dayOrdinal := false }
  | .month_short =>
    { label := "Month (Short)", description := "Nov",
      order := [.part .month],
      options := { year := none, month := some .short, day := none, weekday := none },
      dayOrdinal := false }
  | .month_day_ordinal =>
    { label := "Month Day Ordinal", description := "November 3rd",
      order := [.part .month, .part .day],
      options := { year := none, month := some .long, day := some .numeric, weekday := none },
      dayOrdinal := true }
  | .weekday_month_day_ordinal =>
    { label := "Weekday, Month Day Ordinal", description := "Monday, November 3rd",
      order := [.part .weekday, .sep ", ", .part .month, .part .day],
      options := { year := none, month := some .long, day := some .numeric, weekday := some .long },
      dayOrdinal := true }
  | .month_day_year =>
    { label := "Month Day Year", description := "October 20 2025",
      order := [.part .month, .part .day, .part .year],
      options := { year := some .numeric, month := some .long, day := some .numeric, weekday := none },
      dayOrdinal := false }
  | .month_day_year_ordinal =>
    { label := "Month Day Year Ordinal", description := "November 3rd 2025",
      order := [.part .month, .part .day, .part .year],
      options := { year := some .numeric, month := some .long, day := some .numeric, weekday := none },
      dayOrdinal := true }
  | .weekday_month_day =>
    { label := "Weekday Month Day", description := "Mon Oct 20",
      order := [.part .weekday, .part .month, .part .day],
      options := { year := none, month := some .short, day := some .numeric, weekday := some .short },
      dayOrdinal := false }
  | .weekday_month_day_year =>
    { label := "Weekday Month Day Year", description := "Mon Oct 20 2025",
      order := [.part .weekday, .part .month, .part .day, .part .year],
      options := { year := some .numeric, month := some .short, day := some .numeric, weekday := some .short },
      dayOrdinal := false }
  | .dmy_slash =>
    { label := "D/M/Y Slashes", description := "20/10/2025",
      order := [.part .day, .sep "/", .part .month, .sep "/", .part .year],
      options := { year := some .numeric, month := some .twoDigit, day := some .twoDigit, weekday := none },
      dayOrdinal := false }
  | .ymd_slash =>
    { label := "Y/M/D Slashes", description := "2025/10/20",
      order := [.part .year, .sep "/", .part .month, .sep "/", .part .day],
      options := { year := some .numeric, month := some .twoDigit, day := some .twoDigit, weekday := none },
      dayOrdinal := false }
  | .mdy_slash =>
    { label := "M/D/Y Slashes", description := "10/20/2025",
      order := [.part .month, .sep "/", .part .day, .sep "/", .part .year],
      options := { year := some .numeric, month := some .twoDigit, day := some .twoDigit, weekday := none },
      dayOrdinal := false }
  | .iso =>
    { label := "ISO (Date)", description := "2025-10-20",
      order := [.part .year, .sep "-", .part .month, .sep "-", .part .day],
      options := { year := some .numeric, month := some .twoDigit, day := some .twoDigit, weekday := none },
      dayOrdinal := false }
  | .ymd_dot =>
    { label := "Y.M.D Dots", description := "2025.10.20",
      order := [.part .year, .sep ".", .part .month, .sep ".", .part .day],
      options := { year := some .numeric, month := some .twoDigit, day := some .twoDigit, weekday := none },
      dayOrdinal := false }
  | .dmy_dot =>
    { label := "D.M.Y Dots", description := "20.10.2025",
      order := [.part .day, .sep ".", .part .month, .sep ".", .part .year],
      options := { year := some .numeric, month := some .twoDigit, day := some .twoDigit, weekday := none },
      dayOrdinal := false }
  | .full_long =>
    { label := "Full Long", description := "Monday, October 20, 2025",
      order := [.part .weekday, .sep ", ", .part .month, .part .day, .sep ", ", .part .year],
      options := { year := some .numeric, month := some .long, day := some .numeric, weekday := some .long },
      dayOrdinal := false }
  | .weekday_day_ordinal =>
    { label := "Weekday Day Ordinal", description := "Saturday 20th",
      order := [.part .weekday, .part .day],
      options := { year := none, month := none, day := some .numeric, weekday := some .long },
      dayOrdinal := true }
  | .weekday_month_day_year_ordinal =>
    { label := "Weekday Month Day Year Ordinal", description := "Monday November 3rd 2025",
      order := [.part .weekday, .part .month, .part .day, .part .year],
      options := { year := some .numeric, month := some .long, day := some .numeric, weekday := some .long },
      dayOrdinal := true }
  | .iso_with_weekday =>
    { label := "Weekday ISO", description := "Mon 2025-10-20",
      order := [.part .weekday, .sep " ", .part .year, .sep "-", .part .month, .sep "-", .part .day],
      options := { year := some .numeric, month := some .twoDigit, day := some .twoDigit, weekday := some .short },
      dayOrdinal := false }
  | .custom =>
    { label := "Custom", description := "Controlled by toggles below",
      order := [],
      options := { year := none, month := none, day := none, weekday := none },
      dayOrdinal := false }

/-- Custom-mode day format choices (`dayFormat?: "2-digit" | "numeric" | "ordinal"`). -/
inductive DayFormatChoice
  | twoDigit
  | numeric
  | ordinal
deriving DecidableEq, Repr

/-- Separator choices (`separatorStyle?: "space" | "slash" | "dash" | "comma-space"`). -/
inductive SeparatorStyle
  | space
  | slash
  | dash
  | commaSpace
deriving DecidableEq, Repr

/-- `DateProps["format"]`: preset key plus the custom-mode toggles. The
optional boolean toggles are modelled as `Bool` (the source only tests their
truthiness, where `undefined` behaves as `false`). -/
structure DateFormat where
  preset : PresetKey
  year : Bool
  yearFormat : Option Intl.YearStyle
  month : Bool
  monthFormat : Option Intl.MonthStyle
  day : Bool
  dayFormat : Option DayFormatChoice
  weekday : Bool
  weekdayFormat : Option Intl.WeekdayStyle
  separatorStyle : Option SeparatorStyle
deriving DecidableEq, Repr

/-- The values extracted by `extractParts` (`interface PartValueMap`). -/
structure PartValueMap where
  year : Option String
  month : Option String
  day : Option String
  weekday : Option String
deriving DecidableEq, Repr

/-- `buildFormatter`: preset options verbatim, or options assembled from the
custom toggles (`ordinal` day deliberately omits the `day` option). -/
def buildFormatter (locale : Option String) (timezone : Option Int) (f : DateFormat) :
    Intl.DateTimeFormat :=
  if f.preset ≠ .custom then
    { locale := locale, timeZone := timezone, opts := (PRESETS f.preset).options }
  else
    { locale := locale, timeZone := timezone,
      opts :=
        { year := if f.year then f.yearFormat else none,
          month := if f.month then f.monthFormat else none,
          day :=
            if f.day then
              match f.dayFormat with
              | some .twoDigit => some .twoDigit
              | some .numeric => some .numeric
              | some .ordinal => none
              | none => none
            else none,
          weekday := if f.weekday then f.weekdayFormat else none } }

/-- `extractParts`: the `year`/`month`/`day`/`weekday` parts of
`fmt.formatToParts(d)`. The instant is `ms` (Unix milliseconds); `sysOff` is
the system UTC offset in minutes, used when the formatter has no timezone. -/
def extractParts (sysOff : Int) (ms : Int) (fmt : Intl.DateTimeFormat) : PartValueMap :=
  let off := fmt.timeZone.getD sysOff
  { year := fmt.opts.year.map fun st => Intl.formatYear st (Intl.yearAt ms off),
    month := fmt.opts.month.map fun st => Intl.formatMonth st (Intl.monthAt ms off),
    day := fmt.opts.day.map fun st => Intl.formatDay st (Intl.dayOfMonthAt ms off),
    weekday := fmt.opts.weekday.map fun st => Intl.formatWeekday st (Intl.weekdayAt ms off) }

/-- The separator map of `buildSequence` (`sepMap`). -/
def sepMap : SeparatorStyle → String
  | .space => " "
  | .slash => "/"
  | .dash => "-"
  | .commaSpace => ", "

/-- The `order.forEach` loop of `buildSequence`: pushes each part and, when it
is not the last one, the separator after it. -/
def seqJoin (sep : String) : List DatePartKey → List Token
  | [] => []
  | [p] => [Token.part p]
  | p :: q :: rest => Token.part p :: Token.sep sep :: seqJoin sep (q :: rest)

/-- The enabled custom parts in the fixed order weekday, month, day, year. -/
def customOrder (f : DateFormat) : List DatePartKey :=
  (if f.weekday then [DatePartKey.weekday] else []) ++
  (if f.month then [DatePartKey.month] else []) ++
  (if f.day then [DatePartKey.day] else []) ++
  (if f.year then [DatePartKey.year] else [])

/-- `buildSequence`: the preset order, or the enabled custom parts joined by
the chosen separator (returned bare when at most one part is enabled). -/
def buildSequence (f : DateFormat) : List Token :=
  if f.preset ≠ .custom then (PRESETS f.preset).order
  else
    let sep := sepMap (f.separatorStyle.getD .space)
    let order := customOrder f
    if order.length ≤ 1 then order.map Token.part
    else seqJoin sep order

/-- Field lookup `raw[token]` on a `PartValueMap`. -/
def partGet (raw : PartValueMap) : DatePartKey → Option String
  | .year => raw.year
  | .month => raw.month
  | .day => raw.day
  | .weekday => raw.weekday

/-- The condition under which the composer replaces the day by its ordinal
form (custom format with `dayFormat === 'ordinal'`, or a preset with
`dayOrdinal`). -/
def dayOrdinalActive (f : DateFormat) : Prop :=
  (f.preset = .custom ∧ f.day = true ∧ f.dayFormat = some .ordinal) ∨
  (f.preset ≠ .custom ∧ (PRESETS f.preset).dayOrdinal = true)

instance (f : DateFormat) : Decidable (dayOrdinalActive f) := by
  unfold dayOrdinalActive; infer_instance

/-- The `seq.forEach` accumulation of `composePreview`: appends part values
(with a space between two adjacent parts) and explicit separators verbatim;
the Boolean component is `lastWasPart`. -/
def composeStep (raw : PartValueMap) (acc : String × Bool) (token : Token) : String × Bool :=
  match token with
  | .part k =>
    let v := (partGet raw k).getD ""
    let out := if acc.2 ∧ acc.1.length > 0 then acc.1 ++ " " else acc.1
    (out ++ v, true)
  | .sep s => (acc.1 ++ s, false)

/-- `composePreview`: formats, overrides the day with
`getOrdinalSuffix(date.getDate())` when ordinal mode is active (note
`date.getDate()` reads the day in the system timezone `sysOff`, not in the
formatter's timezone), and folds the sequence into one string. -/
def composePreview (sysOff : Int) (ms : Int) (locale : Option String)
    (timezone : Option Int) (f : DateFormat) : String :=
  let fmt := buildFormatter locale timezone f
  let raw := extractParts sysOff ms fmt
  let raw :=
    if dayOrdinalActive f then
      { raw with day := some (getOrdinalSuffix (Intl.dayOfMonthAt ms sysOff)) }
    else raw
  ((buildSequence f).foldl (composeStep raw) ("", false)).1

/-- The `Render` tick and the DateText widget's single 60-second interval,
modelled as a timer-ownership state machine. `active` is the list of live
intervals owned by the instance (fresh ids are handed out by `setInterval`),
`intervalRef` mirrors the `useRef` holding the last id. -/
structure IntervalTimer where
  id : Nat
  periodMs : Nat
deriving DecidableEq, Repr

/-- `window.clearInterval`: removes the interval with the given id (a no-op
on an id that is not active). -/
def clearIntervalById (l : List IntervalTimer) (id : Nat) : List IntervalTimer :=
  l.filter fun t => t.id != id

/-- State that the DateText `useEffect` manipulates. -/
structure TimerState where
  active : List IntervalTimer
  intervalRef : Option Nat
  fresh : Nat
deriving DecidableEq, Repr

/-- The effect body: `tick(); if (intervalRef.current) clearInterval(...);
intervalRef.current = setInterval(tick, 60_000)`. -/
def runEffect (s : TimerState) : TimerState :=
  let active :=
    match s.intervalRef with
    | some id => clearIntervalById s.active id
    | none => s.active
  { active := active ++ [⟨s.fresh, 60000⟩], intervalRef := some s.fresh,
    fresh := s.fresh + 1 }

/-- The effect cleanup: `if (intervalRef.current) clearInterval(...)`. -/
def cleanupEffect (s : TimerState) : TimerState :=
  match s.intervalRef with
  | some id => { s with active := clearIntervalById s.active id }
  | none => s

/-- States a DateText instance can reach. React runs the cleanup before every
effect re-run and at unmount; since the effect body also clears any previous
interval itself, the invariant holds even for arbitrary interleavings, so the
relation allows them. -/
inductive TimerReachable : TimerState → Prop
  | init : TimerReachable ⟨[], none, 0⟩
  | effect {s} : TimerReachable s → TimerReachable (runEffect s)
  | cleanup {s} : TimerReachable s → TimerReachable (cleanupEffect s)

end DateText

namespace Helpers

/-- The language tag `getLocale` canonicalizes:
`inputLocale || (typeof navigator !== "undefined" ? navigator.language :
"en-US")`. `navigatorLanguage = none` models an absent `navigator`; an empty
input string is falsy in JavaScript and also falls through. -/
def chosenLang (inputLocale : Option String) (navigatorLanguage : Option String) : String :=
  match inputLocale with
  | some s => if s = "" then navigatorLanguage.getD "en-US" else s
  | none => navigatorLanguage.getD "en-US"

/-- `getLocale` from `src/helpers.ts`. `canonicalize` models
`Intl.getCanonicalLocales([lang])[0]`, which either returns the canonical tag
or throws (`Except.error`); the `try/catch` swallows the error and leaves
`locale` equal to `undefined` (`none`). -/
def getLocale (canonicalize : String → Except String String)
    (inputLocale : Option String) (navigatorLanguage : Option String) : Option String :=
  match canonicalize (chosenLang inputLocale navigatorLanguage) with
  | .ok l => some l
  | .error _ => none

end Helpers

namespace DigitalClock

/-- `type Digit = number | string`. -/
inductive Digit
  | num (n : Int)
  | str (s : String)
deriving DecidableEq, Repr

/-- JavaScript `String(next)` on a `Digit`. -/
def Digit.toStr : Digit → String
  | .num n => toString n
  | .str s => s

/-- The DOM/ref state of one `FlipDigit`: the `currentRef`/`nextRef` refs, the
text content of the four faces, and whether the card carries the
`ha-dc__flipped` class. -/
structure FlipDigitState where
  current : Digit
  next : Digit
  nextAbove : String
  back : String
  currentBelow : String
  front : String
  flipped : Bool
deriving DecidableEq, Repr

/-- The `updateDigit` updater registered by `FlipDigit`: returns unchanged
when `next === currentRef.current`; otherwise either writes all four faces
immediately or stages the next value and starts the flip transition. -/
def updateDigit (s : FlipDigitState) (next : Digit) (immediate : Bool) : FlipDigitState :=
  if next = s.current then s
  else if immediate then
    { current := next, next := next, nextAbove := next.toStr, back := next.toStr,
      currentBelow := next.toStr, front := next.toStr, flipped := s.flipped }
  else
    { s with next := next, nextAbove := next.toStr, back := next.toStr, flipped := true }

/-- `handleTransitionEnd`: promotes the staged value and removes the flip
class. -/
def handleTransitionEnd (s : FlipDigitState) : FlipDigitState :=
  { s with
    current := s.next, currentBelow := s.next.toStr, front := s.next.toStr,
    flipped := false }

/-- The digital-mode span updater registered in `Render`: `textContent` is the
span's displayed text; immediate writes unconditionally, otherwise it writes
only when the text differs. -/
def digitalSpanUpdate (textContent : String) (next : Digit) (immediate : Bool) : String :=
  if immediate then next.toStr
  else if textContent ≠ next.toStr then next.toStr else textContent

/-- The unit keys of the digital clock (`type UnitKey`). -/
inductive UnitKey
  | year
  | month
  | day
  | hour
  | minute
  | second
  | hours_am_pm
deriving DecidableEq, Repr

/-- `ORDERED_UNITS`. -/
def ORDERED_UNITS : List UnitKey :=
  [.year, .month, .day, .hour, .minute, .second, .hours_am_pm]

/-- `show.hourFormat: "12" | "24"`. -/
inductive HourFormat
  | h12
  | h24
deriving DecidableEq, Repr

/-- `yearFormat?: "2-digit"`. -/
inductive YearFormatDC
  | twoDigit
deriving DecidableEq, Repr

/-- `monthFormat?: "2-digit" | "short" | "long" | "narrow"`. -/
inductive MonthFormatDC
  | twoDigit
  | short
  | long
  | narrow
deriving DecidableEq, Repr

/-- `dayFormat?: "2-digit" | "short" | "long" | "narrow"` (short/long/narrow
select a weekday name instead of the day of month). -/
inductive DayFormatDC
  | twoDigit
  | short
  | long
  | narrow
deriving DecidableEq, Repr

/-- `hoursAmPmFormat?: "default" | "scaled"`. -/
inductive AmPmFormat
  | dflt
  | scaled
deriving DecidableEq, Repr

/-- `hoursAmPmPosition?: "top" | "center" | "bottom"`. -/
inductive AmPmPosition
  | top
  | center
  | bottom
deriving DecidableEq, Repr

/-- `DigitalClockProps["show"]`. -/
structure ShowConfig where
  hourFormat : HourFormat
  year : Bool
  yearFormat : Option YearFormatDC
  month : Bool
  monthFormat : Option MonthFormatDC
  day : Bool
  dayFormat : Option DayFormatDC
  hour : Bool
  minute : Bool
  second : Bool
  hours_am_pm : Bool
  hoursAmPmFormat : Option AmPmFormat
  hoursAmPmPosition : Option AmPmPosition
deriving DecidableEq, Repr

/-- `pad2`: prefixes a leading zero onto a single-character value. -/
def pad2 (v : String) : String :=
  if v.length = 1 then "0" ++ v else v

/-- `enabledUnits`: `ORDERED_UNITS` filtered by the show toggles;
`hours_am_pm` additionally requires 12-hour mode. -/
def enabledUnits (sc : ShowConfig) : List UnitKey :=
  ORDERED_UNITS.filter fun k =>
    match k with
    | .hours_am_pm => sc.hours_am_pm && sc.hourFormat == .h12
    | .year => sc.year
    | .month => sc.month
    | .day => sc.day
    | .hour => sc.hour
    | .minute => sc.minute
    | .second => sc.second

/-- The raw display value of one unit: `parts[k] || ""`, with the
`hours_am_pm` fallback `now.getHours() < 12 ? "AM" : "PM"`. `parts` models
the result of `extractParts` (which never stores an empty string), `hours`
the system-local hour of `now`. -/
def unitRaw (parts : UnitKey → Option String) (hours : Nat) (k : UnitKey) : String :=
  if k = .hours_am_pm then (parts k).getD (if hours < 12 then "AM" else "PM")
  else (parts k).getD ""

/-- The per-unit zero-padding post-processing, shared verbatim by
`buildInitialSections` and `applyTick`: pads a single-character month under a
defaulted or `2-digit` month format, a single-character day under a `2-digit`
day format, and any single-character hour, minute or second. -/
def processVal (sc : ShowConfig) (k : UnitKey) (val : String) : String :=
  let val1 :=
    if k = .month ∧ sc.month = true ∧
        (sc.monthFormat = none ∨ sc.monthFormat = some .twoDigit) ∧ val.length = 1
    then pad2 val else val
  let val2 :=
    if k = .day ∧ sc.day = true ∧ sc.dayFormat = some .twoDigit ∧ val1.length = 1
    then pad2 val1 else val1
  if (k = .hour ∨ k = .minute ∨ k = .second) ∧ val2.length = 1
  then pad2 val2 else val2

/-- `buildInitialSections`: one `(unit, digits)` section per enabled unit,
where the digits are `val.split("")` of the processed value. -/
def buildInitialSections (enabled : List UnitKey) (sc : ShowConfig)
    (parts : UnitKey → Option String) (hours : Nat) : List (UnitKey × List Char) :=
  enabled.map fun k => (k, (processVal sc k (unitRaw parts hours k)).data)

/-- The values `applyTick` feeds to the digit updaters: identical processing
to `buildInitialSections` (the two loops share the same code). -/
def applyTickVals (enabled : List UnitKey) (sc : ShowConfig)
    (parts : UnitKey → Option String) (hours : Nat) : List (UnitKey × List Char) :=
  enabled.map fun k => (k, (processVal sc k (unitRaw parts hours k)).data)

/-- Timer-ownership state of one DigitalClock instance: pending timeout ids,
live interval `(id, periodMs)` pairs, and the current effect closure's
`timeoutId` and `intervalRef.current` (`none` models the initial `0`). -/
structure ClockTimerState where
  activeTimeouts : List Nat
  activeIntervals : List (Nat × Nat)
  curTimeout : Option Nat
  curInterval : Option Nat
  fresh : Nat
deriving DecidableEq, Repr

/-- The effect body: `timeoutId = setTimeout(..., delay)` with a fresh
`intervalRef = { current: 0 }`. -/
def clockEffect (s : ClockTimerState) : ClockTimerState :=
  { s with
    activeTimeouts := s.activeTimeouts ++ [s.fresh], curTimeout := some s.fresh,
    curInterval := none, fresh := s.fresh + 1 }

/-- The timeout callback firing: the pending timeout is consumed, `tick()`
runs, and `intervalRef.current = setInterval(tick, 1000)`. A cleared or
already-fired timeout cannot fire. -/
def clockTimeoutFire (s : ClockTimerState) : ClockTimerState :=
  match s.curTimeout with
  | some t =>
    if t ∈ s.activeTimeouts then
      { s with
        activeTimeouts := s.activeTimeouts.filter (· != t),
        activeIntervals := s.activeIntervals ++ [(s.fresh, 1000)],
        curInterval := some s.fresh, fresh := s.fresh + 1 }
    else s
  | none => s

/-- The effect cleanup: `clearTimeout(timeoutId); if (intervalRef.current)
clearInterval(intervalRef.current)`. -/
def clockCleanup (s : ClockTimerState) : ClockTimerState :=
  let timeouts :=
    match s.curTimeout with
    | some t => s.activeTimeouts.filter (· != t)
    | none => s.activeTimeouts
  let intervals :=
    match s.curInterval with
    | some i => s.activeIntervals.filter fun p => p.1 != i
    | none => s.activeIntervals
  { s with activeTimeouts := timeouts, activeIntervals := intervals }

/-- States a DigitalClock instance can reach: React runs the previous
cleanup before every effect re-run (`mountOrRerun`, which on first mount
starts from a state the cleanup leaves unchanged), the pending timeout may
fire, and unmount runs the cleanup. -/
inductive ClockReachable : ClockTimerState → Prop
  | init : ClockReachable ⟨[], [], none, none, 0⟩
  | mountOrRerun {s} : ClockReachable s → ClockReachable (clockEffect (clockCleanup s))
  | fire {s} : ClockReachable s → ClockReachable (clockTimeoutFire s)
  | unmount {s} : ClockReachable s → ClockReachable (clockCleanup s)

end DigitalClock

namespace AnalogClock

/-- The parsed output of the `formatToParts` call in `AnalogClockPrivate`
(`parseInt` of the hour, minute and second parts, plus
`now.getMilliseconds()`). -/
structure TimeParts where
  hour : Nat
  minute : Nat
  second : Nat
  ms : Nat
deriving DecidableEq, Repr

/-- The six memoized values driving the hands. -/
structure HandInit where
  hourDelay : ℚ
  minuteDelay : ℚ
  secondDelay : ℚ
  hourRotationStart : ℚ
  minuteRotationStart : ℚ
  secondRotationStart : ℚ
deriving DecidableEq, Repr

/-- The all-zero fallback returned by the `catch` branch. -/
def zeroHandInit : HandInit := ⟨0, 0, 0, 0, 0, 0⟩

/-- The `useMemo` body of `AnalogClockPrivate`: the `try` block computed up to
the formatter call is modelled by its outcome `r` (`Except.error` when the
formatter construction or formatting throws, e.g. on an invalid timezone
identifier); the `catch` returns all zeros. -/
def computeHandInit (r : Except String TimeParts) : HandInit :=
  match r with
  | .error _ => zeroHandInit
  | .ok p =>
    let secondsWithMs : ℚ := (p.second : ℚ) + (p.ms : ℚ) / 1000
    let hour12 := p.hour % 12
    let hourRotation : ℚ := (hour12 : ℚ) * 30 + (p.minute : ℚ) * (1 / 2) + secondsWithMs / 120
    let minuteRotation : ℚ := (p.minute : ℚ) * 6 + secondsWithMs / 10
    let secondRotation : ℚ := secondsWithMs * 6
    { hourDelay := -((hour12 : ℚ) * 3600 + (p.minute : ℚ) * 60 + secondsWithMs),
      minuteDelay := -((p.minute : ℚ) * 60 + secondsWithMs),
      secondDelay := -secondsWithMs,
      hourRotationStart := hourRotation,
      minuteRotationStart := minuteRotation,
      secondRotationStart := secondRotation }

end AnalogClock

/-- The English ordinal-suffix rule exactly as the design document states it
(for comparison with `DateText.getOrdinalSuffix`): "th" when the day modulo
100 is 11, 12 or 13; otherwise "st", "nd", "rd" for last digit 1, 2, 3, and
"th" in all remaining cases. -/
def specOrdinalSuffixRule (day : Nat) : String :=
  if day % 100 = 11 ∨ day % 100 = 12 ∨ day % 100 = 13 then "th"
  else if day % 10 = 1 then "st"
  else if day % 10 = 2 then "nd"
  else if day % 10 = 3 then "rd"
  else "th"

/-- Invariant of the DateText timer machine: the instance owns no interval,
or exactly the one 60-second interval recorded in `intervalRef`. -/
def DtTimerInv (s : DateText.TimerState) : Prop :=
  s.active = [] ∨ ∃ id, s.active = [⟨id, 60000⟩] ∧ s.intervalRef = some id

/-- Invariant of the DigitalClock timer machine: at most the one pending
alignment timeout recorded in `curTimeout`, at most the one 1-second interval
recorded in `intervalRef.current`, and never both at once. -/
def DcTimerInv (s : DigitalClock.ClockTimerState) : Prop :=
  (s.activeTimeouts = [] ∨ ∃ t, s.activeTimeouts = [t] ∧ s.curTimeout = some t) ∧
  (s.activeIntervals = [] ∨ ∃ i, s.activeIntervals = [(i, 1000)] ∧ s.curInterval = some i) ∧
  (s.activeTimeouts ≠ [] → s.activeIntervals = [])

/-- C1: for every day value from 1 to 31, `getOrdinalSuffix day` is the day
followed by the English ordinal suffix given by the 11-13 exception rule
(11th, 12th, 13th, 21st, 22nd, 23rd, 24th, ...). -/
theorem C1_ordinal_suffix_rule (day : Nat) (h1 : 1 ≤ day) (h2 : day ≤ 31) :
    DateText.getOrdinalSuffix day = toString day ++ specOrdinalSuffixRule day := by
  interval_cases day <;> rfl

/-- Witness for C1 at day 23. -/
theorem C1_ordinal_suffix_rule_witness :
    1 ≤ 23 ∧ 23 ≤ 31 ∧
      DateText.getOrdinalSuffix 23 = toString 23 ++ specOrdinalSuffixRule 23 :=
  ⟨by decide, by decide, C1_ordinal_suffix_rule 23 (by decide) (by decide)⟩

/-- C5: `getLocale` is total (it returns an `Option`, never propagating the
canonicalization failure): when canonicalizing the chosen language tag fails
it returns `none` (JavaScript `undefined`, which makes the downstream
`Intl.DateTimeFormat` calls use the platform default locale), and when it
succeeds it returns the canonical tag. -/
theorem C5_getLocale_swallows_failure (canonicalize : String → Except String String)
    (inp nav : Option String) :
    (∀ e, canonicalize (Helpers.chosenLang inp nav) = .error e →
      Helpers.getLocale canonicalize inp nav = none) ∧
    (∀ l, canonicalize (Helpers.chosenLang inp nav) = .ok l →
      Helpers.getLocale canonicalize inp nav = some l) := by
  constructor
  · intro e he
    simp [Helpers.getLocale, he]
  · intro l hl
    simp [Helpers.getLocale, hl]

/-- Witness for C5: a canonicalizer that always throws yields `none`. -/
theorem C5_getLocale_swallows_failure_witness :
    Helpers.getLocale (fun _ => Except.error "RangeError") (some "i-bogus") (some "en-AU") =
      none :=
  (C5_getLocale_swallows_failure (fun _ => Except.error "RangeError")
    (some "i-bogus") (some "en-AU")).1 "RangeError" rfl

/-- C6: updating a digit with an unchanged value is a no-op: the FlipDigit
updater leaves the whole state (faces, flip class, current/next refs)
unchanged when the next value equals the current one, and the digital-mode
span updater leaves the span text unchanged when it already shows the value. -/
theorem C6_unchanged_update_is_noop (s : DigitalClock.FlipDigitState)
    (next : DigitalClock.Digit) (imm : Bool) (tc : String) (d : DigitalClock.Digit)
    (imm2 : Bool) (h1 : next = s.current) (h2 : tc = d.toStr) :
    DigitalClock.updateDigit s next imm = s ∧
      DigitalClock.digitalSpanUpdate tc d imm2 = tc := by
  constructor
  · simp [DigitalClock.updateDigit, h1]
  · cases imm2 <;> simp [DigitalClock.digitalSpanUpdate, h2]

/-- Witness for C6 at a concrete digit state. -/
theorem C6_unchanged_update_is_noop_witness :
    DigitalClock.updateDigit
        ⟨.str "5", .str "5", "5", "5", "5", "5", false⟩ (.str "5") false =
      ⟨.str "5", .str "5", "5", "5", "5", "5", false⟩ ∧
    DigitalClock.digitalSpanUpdate "7" (.str "7") true = "7" :=
  C6_unchanged_update_is_noop ⟨.str "5", .str "5", "5", "5", "5", "5", false⟩
    (.str "5") false "7" (.str "7") true rfl rfl

/-- C9: for every show configuration, `enabledUnits` is a subsequence of the
fixed order `ORDERED_UNITS` = [year, month, day, hour, minute, second,
hours_am_pm], and it contains `hours_am_pm` exactly when the toggle is on and
the hour format is "12". -/
theorem C9_enabledUnits_ordered (sc : DigitalClock.ShowConfig) :
    (DigitalClock.enabledUnits sc).Sublist DigitalClock.ORDERED_UNITS ∧
    (DigitalClock.UnitKey.hours_am_pm ∈ DigitalClock.enabledUnits sc ↔
      sc.hours_am_pm = true ∧ sc.hourFormat = .h12) := by
  refine ⟨List.filter_sublist _, ?_⟩
  simp [DigitalClock.enabledUnits, DigitalClock.ORDERED_UNITS]

/-- C10: the analog clock's initial hand computation falls back to all zeros
when the time formatting throws (e.g. on an invalid timezone identifier)
instead of propagating the exception. -/
theorem C10_analog_fallback_zero (r : Except String AnalogClock.TimeParts)
    (e : String) (h : r = .error e) :
    AnalogClock.computeHandInit r = AnalogClock.zeroHandInit := by
  subst h
  rfl

/-- Witness for C10: a throwing formatter yields the zero hand state. -/
theorem C10_analog_fallback_zero_witness :
    AnalogClock.computeHandInit (.error "RangeError: invalid time zone") =
      AnalogClock.zeroHandInit :=
  C10_analog_fallback_zero _ "RangeError: invalid time zone" rfl

/-- C3: in the shared padding step of `buildInitialSections` and `applyTick`,
every single-character month value under a defaulted or `2-digit` month
format, every single-character day value under a `2-digit` day format, and
every single-character hour, minute or second value is transformed by `pad2`
into the character prefixed with a leading zero — a two-character string
starting with `'0'`. -/
theorem C3_two_digit_padding (sc : DigitalClock.ShowConfig) (val : String)
    (h1 : val.length = 1) :
    (sc.month = true → (sc.monthFormat = none ∨ sc.monthFormat = some .twoDigit) →
      DigitalClock.processVal sc .month val = "0" ++ val) ∧
    (sc.day = true → sc.dayFormat = some .twoDigit →
      DigitalClock.processVal sc .day val = "0" ++ val) ∧
    (∀ k, (k = DigitalClock.UnitKey.hour ∨ k = .minute ∨ k = .second) →
      DigitalClock.processVal sc k val = "0" ++ val) ∧
    ("0" ++ val).length = 2 ∧ ("0" ++ val).data.head? = some '0' := by
  have hpad : DigitalClock.pad2 val = "0" ++ val := by
    simp [DigitalClock.pad2, h1]
  refine ⟨?_, ?_, ?_, ?_, ?_⟩
  · intro hm hmf
    rcases hmf with h | h <;>
      simp [DigitalClock.processVal, hpad, h1, hm, h]
  · intro hd hdf
    simp [DigitalClock.processVal, hpad, h1, hd, hdf]
  · intro k hk
    rcases hk with h | h | h <;> subst h <;>
      simp [DigitalClock.processVal, hpad, h1]
  · rw [String.length_append, h1]
    rfl
  · rw [String.data_append]
    rfl

/-- Witness for C3: a minute value "5" is padded to "05". -/
theorem C3_two_digit_padding_witness :
    ("5" : String).length = 1 ∧
    DigitalClock.processVal
      { hourFormat := .h12, year := false, yearFormat := none, month := true,
        monthFormat := some .twoDigit, day := true, dayFormat := some .twoDigit,
        hour := true, minute := true, second := true, hours_am_pm := true,
        hoursAmPmFormat := none, hoursAmPmPosition := none } .minute "5" = "0" ++ "5" :=
  ⟨by decide, (C3_two_digit_padding _ "5" (by decide)).2.2.1 .minute (Or.inr (Or.inl rfl))⟩

/-- The `forEach` join of `buildSequence` is `List.intersperse` of the mapped
parts: one separator between each pair of adjacent parts, none at the ends. -/
theorem seqJoin_eq_intersperse (sep : String) (l : List DateText.DatePartKey) :
    DateText.seqJoin sep l =
      List.intersperse (DateText.Token.sep sep) (l.map DateText.Token.part) := by
  match l with
  | [] => rfl
  | [p] => rfl
  | p :: q :: rest =>
    rw [DateText.seqJoin, List.map_cons, List.map_cons, List.intersperse_cons_cons]
    rw [seqJoin_eq_intersperse sep (q :: rest), List.map_cons]

/-- The short-list branch of `buildSequence` agrees with `List.intersperse`
as well (an empty or singleton order carries no separator). -/
theorem seqJoin_branch_eq (sep : String) (l : List DateText.DatePartKey) :
    (if l.length ≤ 1 then l.map DateText.Token.part else DateText.seqJoin sep l) =
      List.intersperse (DateText.Token.sep sep) (l.map DateText.Token.part) := by
  match l with
  | [] => rfl
  | [p] => rfl
  | p :: q :: rest =>
    rw [if_neg (by simp)]
    exact seqJoin_eq_intersperse sep (p :: q :: rest)

/-- C7: every element of `buildSequence` is a date-part token (year, month,
day or weekday) or a literal separator, and for a custom specification the
result is the enabled parts with exactly one chosen-separator token between
each pair of adjacent parts and none at either end (`List.intersperse`),
hence no separator at all when at most one part is enabled. -/
theorem C7_buildSequence_tokens :
    (∀ (f : DateText.DateFormat), ∀ t ∈ DateText.buildSequence f,
      (∃ p, t = DateText.Token.part p) ∨ (∃ s, t = DateText.Token.sep s)) ∧
    (∀ f : DateText.DateFormat, f.preset = .custom →
      DateText.buildSequence f =
        List.intersperse
          (DateText.Token.sep (DateText.sepMap (f.separatorStyle.getD .space)))
          ((DateText.customOrder f).map DateText.Token.part)) := by
  constructor
  · intro f t ht
    rcases t with p | s
    · exact Or.inl ⟨p, rfl⟩
    · exact Or.inr ⟨s, rfl⟩
  · intro f hf
    unfold DateText.buildSequence
    rw [if_neg (by simp [hf])]
    exact seqJoin_branch_eq _ _

/-- Witness for C7: weekday, month and year enabled with slash separators. -/
theorem C7_buildSequence_tokens_witness :
    DateText.buildSequence
      { preset := .custom, year := true, yearFormat := none, month := true,
        monthFormat := none, day := false, dayFormat := none, weekday := true,
        weekdayFormat := none, separatorStyle := some .slash } =
      [DateText.Token.part .weekday, DateText.Token.sep "/", DateText.Token.part .month,
        DateText.Token.sep "/", DateText.Token.part .year] :=
  C7_buildSequence_tokens.2 _ rfl

/-- Formatter of a non-custom preset: exactly the preset's options. -/
theorem buildFormatter_of_preset (locale : Option String) (tz : Option Int)
    (f : DateText.DateFormat) (hc : f.preset ≠ .custom) :
    DateText.buildFormatter locale tz f =
      { locale := locale, timeZone := tz, opts := (DateText.PRESETS f.preset).options } := by
  unfold DateText.buildFormatter
  rw [if_pos hc]

/-- Sequence of a non-custom preset: exactly the preset's order. -/
theorem buildSequence_of_preset (f : DateText.DateFormat) (hc : f.preset ≠ .custom) :
    DateText.buildSequence f = (DateText.PRESETS f.preset).order := by
  unfold DateText.buildSequence
  rw [if_pos hc]

/-- Ordinal mode of a non-custom preset: exactly the preset's flag. -/
theorem dayOrdinalActive_of_preset (f : DateText.DateFormat) (hc : f.preset ≠ .custom) :
    DateText.dayOrdinalActive f ↔ (DateText.PRESETS f.preset).dayOrdinal = true := by
  unfold DateText.dayOrdinalActive
  simp [hc]

/-- C4: the composer is deterministic and total — equal (instant, locale,
timezone, format) tuples give equal strings (all operations in the embedding
are pure functions, so the result exists for every valid configuration), and
for a named (non-custom) preset the output depends only on the preset key:
any two format values selecting the same named preset give the same fixed
string at a fixed instant and locale. -/
theorem C4_composePreview_deterministic :
    (∀ (sysOff ms ms2 : Int) (locale locale2 : Option String) (tz tz2 : Option Int)
      (f f2 : DateText.DateFormat), (ms, locale, tz, f) = (ms2, locale2, tz2, f2) →
      DateText.composePreview sysOff ms locale tz f =
        DateText.composePreview sysOff ms2 locale2 tz2 f2) ∧
    (∀ (sysOff ms : Int) (locale : Option String) (tz : Option Int)
      (f g : DateText.DateFormat), f.preset = g.preset → f.preset ≠ .custom →
      DateText.composePreview sysOff ms locale tz f =
        DateText.composePreview sysOff ms locale tz g) := by
  constructor
  · intro sysOff ms ms2 locale locale2 tz tz2 f f2 h
    cases h
    rfl
  · intro sysOff ms locale tz f g hp hc
    have hg : g.preset ≠ .custom := hp ▸ hc
    simp only [DateText.composePreview, buildFormatter_of_preset locale tz f hc,
      buildFormatter_of_preset locale tz g hg, buildSequence_of_preset f hc,
      buildSequence_of_preset g hg, dayOrdinalActive_of_preset f hc,
      dayOrdinalActive_of_preset g hg, hp]

/-- Witness for C4: the `full_long` preset at a fixed instant and locale. -/
theorem C4_composePreview_deterministic_witness :
    DateText.composePreview 0 1760961600000 (some "en-US") (some 0)
      { preset := .full_long, year := false, yearFormat := none, month := false,
        monthFormat := none, day := false, dayFormat := none, weekday := false,
        weekdayFormat := none, separatorStyle := none } =
    DateText.composePreview 0 1760961600000 (some "en-US") (some 0)
      { preset := .full_long, year := false, yearFormat := none, month := false,
        monthFormat := none, day := false, dayFormat := none, weekday := false,
        weekdayFormat := none, separatorStyle := none } :=
  C4_composePreview_deterministic.1 0 1760961600000 1760961600000 _ _ _ _ _ _ rfl

/-- C2 (failing-input evaluation): at instant 2025-11-04T00:30:00Z with the
system timezone at UTC (offset 0) and the configured timezone at offset -600
minutes (Pacific/Honolulu, where the instant reads November 3rd), the
`month_day_ordinal` composer renders "November 4th" — the ordinal of
`date.getDate()` in the system timezone — whereas the day-of-month in the
configured timezone is 3, whose ordinal form is "3rd". -/
theorem C2_ordinal_day_reads_system_timezone :
    DateText.composePreview 0 1762216200000 (some "en-US") (some (-600))
      { preset := .month_day_ordinal, year := false, yearFormat := none, month := false,
        monthFormat := none, day := false, dayFormat := none, weekday := false,
        weekdayFormat := none, separatorStyle := none } = "November 4th" ∧
    Intl.dayOfMonthAt 1762216200000 (-600) = 3 ∧
    DateText.getOrdinalSuffix 3 = "3rd" ∧
    ("November 4th" : String) ≠ "November 3rd" := by
  exact ⟨rfl, rfl, rfl, by decide⟩

/-- The invariant holds in every reachable DateText timer state. -/
theorem dtTimerInv_reachable {s : DateText.TimerState}
    (h : DateText.TimerReachable s) : DtTimerInv s := by
  induction h with
  | init => exact Or.inl rfl
  | @effect s h ih =>
    unfold DtTimerInv at ih ⊢
    right
    refine ⟨s.fresh, ?_, rfl⟩
    rcases ih with h0 | ⟨id, ha, hr⟩
    · cases hIR : s.intervalRef <;>
        simp [DateText.runEffect, DateText.clearIntervalById, h0, hIR]
    · simp [DateText.runEffect, DateText.clearIntervalById, ha, hr]
  | @cleanup s h ih =>
    unfold DtTimerInv at ih ⊢
    left
    rcases ih with h0 | ⟨id, ha, hr⟩
    · cases hIR : s.intervalRef <;>
        simp [DateText.cleanupEffect, DateText.clearIntervalById, h0, hIR]
    · simp [DateText.cleanupEffect, DateText.clearIntervalById, ha, hr]

/-- Under the invariant, the DigitalClock cleanup cancels both timers. -/
theorem dcCleanup_empties {s : DigitalClock.ClockTimerState} (inv : DcTimerInv s) :
    (DigitalClock.clockCleanup s).activeTimeouts = [] ∧
    (DigitalClock.clockCleanup s).activeIntervals = [] := by
  obtain ⟨h1, h2, _⟩ := inv
  constructor
  · rcases h1 with h | ⟨t, ha, hc⟩
    · cases hC : s.curTimeout <;> simp [DigitalClock.clockCleanup, h, hC]
    · simp [DigitalClock.clockCleanup, ha, hc]
  · rcases h2 with h | ⟨i, ha, hc⟩
    · cases hC : s.curInterval <;> simp [DigitalClock.clockCleanup, h, hC]
    · simp [DigitalClock.clockCleanup, ha, hc]

/-- The invariant holds in every reachable DigitalClock timer state. -/
theorem dcTimerInv_reachable {s : DigitalClock.ClockTimerState}
    (h : DigitalClock.ClockReachable s) : DcTimerInv s := by
  induction h with
  | init => exact ⟨Or.inl rfl, Or.inl rfl, fun _ => rfl⟩
  | @mountOrRerun s h ih =>
    obtain ⟨ht, hi⟩ := dcCleanup_empties ih
    refine ⟨Or.inr ⟨(DigitalClock.clockCleanup s).fresh, ?_, rfl⟩, Or.inl ?_, fun _ => ?_⟩
    · simp [DigitalClock.clockEffect, ht]
    · simp [DigitalClock.clockEffect, hi]
    · simp [DigitalClock.clockEffect, hi]
  | @fire s h ih =>
    cases hC : s.curTimeout with
    | none =>
      simp only [DigitalClock.clockTimeoutFire, hC]
      exact ih
    | some t =>
      by_cases hmem : t ∈ s.activeTimeouts
      · obtain ⟨h1, h2, h3⟩ := ih
        rcases h1 with hT | ⟨t2, haT, hcT⟩
        · rw [hT] at hmem
          cases hmem
        · have hIempty : s.activeIntervals = [] := by
            refine h3 ?_
            rw [haT]
            simp
          have ht2 : t = t2 := by
            rw [hC] at hcT
            exact Option.some.inj hcT
          refine ⟨Or.inl ?_, Or.inr ⟨s.fresh, ?_, ?_⟩, fun hne => absurd ?_ hne⟩ <;>
            simp [DigitalClock.clockTimeoutFire, hC, hmem, haT, hIempty, ht2]
      · simp only [DigitalClock.clockTimeoutFire, hC, if_neg hmem]
        exact ih
  | @unmount s h ih =>
    obtain ⟨ht, hi⟩ := dcCleanup_empties ih
    exact ⟨Or.inl ht, Or.inl hi, fun _ => hi⟩

/-- C8: in every reachable state, the DateText instance owns at most one
interval and every interval it owns is the 60-second tick, and the
DigitalClock instance owns at most one interval (the 1-second tick) plus at
most one alignment timeout; after each instance's effect cleanup runs, no
timer owned by that instance remains active. -/
theorem C8_single_timer_per_instance :
    (∀ s, DateText.TimerReachable s → s.active.length ≤ 1 ∧
      (∀ t ∈ s.active, t.periodMs = 60000) ∧
      (DateText.cleanupEffect s).active = []) ∧
    (∀ s, DigitalClock.ClockReachable s → s.activeIntervals.length ≤ 1 ∧
      s.activeTimeouts.length ≤ 1 ∧ (∀ p ∈ s.activeIntervals, p.2 = 1000) ∧
      (DigitalClock.clockCleanup s).activeTimeouts = [] ∧
      (DigitalClock.clockCleanup s).activeIntervals = []) := by
  constructor
  · intro s h
    have inv := dtTimerInv_reachable h
    unfold DtTimerInv at inv
    rcases inv with h0 | ⟨id, ha, hr⟩
    · refine ⟨by simp [h0], by simp [h0], ?_⟩
      cases hIR : s.intervalRef <;>
        simp [DateText.cleanupEffect, DateText.clearIntervalById, h0, hIR]
    · refine ⟨by simp [ha], ?_, ?_⟩
      · intro t ht
        rw [ha] at ht
        simp only [List.mem_singleton] at ht
        rw [ht]
      · simp [DateText.cleanupEffect, DateText.clearIntervalById, ha, hr]
  · intro s h
    have inv := dcTimerInv_reachable h
    obtain ⟨hc1, hc2⟩ := dcCleanup_empties inv
    obtain ⟨h1, h2, _⟩ := inv
    refine ⟨?_, ?_, ?_, hc1, hc2⟩
    · rcases h2 with hI | ⟨i, ha, _⟩
      · simp [hI]
      · simp [ha]
    · rcases h1 with hT | ⟨t, ha, _⟩
      · simp [hT]
      · simp [ha]
    · intro p hp
      rcases h2 with hI | ⟨i, ha, _⟩
      · rw [hI] at hp
        cases hp
      · rw [ha] at hp
        simp only [List.mem_singleton] at hp
        rw [hp]

/-- Witness for C8: the states reached by a first effect run of each widget. -/
theorem C8_single_timer_per_instance_witness :
    ((DateText.runEffect ⟨[], none, 0⟩).active.length ≤ 1 ∧
      (∀ t ∈ (DateText.runEffect ⟨[], none, 0⟩).active, t.periodMs = 60000) ∧
      (DateText.cleanupEffect (DateText.runEffect ⟨[], none, 0⟩)).active = []) ∧
    ((DigitalClock.clockEffect (DigitalClock.clockCleanup ⟨[], [], none, none, 0⟩)).activeIntervals.length ≤ 1 ∧
      (DigitalClock.clockEffect (DigitalClock.clockCleanup ⟨[], [], none, none, 0⟩)).activeTimeouts.length ≤ 1 ∧
      (∀ p ∈ (DigitalClock.clockEffect (DigitalClock.clockCleanup ⟨[], [], none, none, 0⟩)).activeIntervals, p.2 = 1000) ∧
      (DigitalClock.clockCleanup (DigitalClock.clockEffect (DigitalClock.clockCleanup ⟨[], [], none, none, 0⟩))).activeTimeouts = [] ∧
      (DigitalClock.clockCleanup (DigitalClock.clockEffect (DigitalClock.clockCleanup ⟨[], [], none, none, 0⟩))).activeIntervals = []) :=
  ⟨C8_single_timer_per_instance.1 _
      (DateText.TimerReachable.effect DateText.TimerReachable.init),
    C8_single_timer_per_instance.2 _
      (DigitalClock.ClockReachable.mountOrRerun DigitalClock.ClockReachable.init)⟩
